import Mathlib

/-!
Shallow embedding of the `ex` Go package (src/ex.go) and verification of the
specification claims about it.

Modelling decisions, each traceable to the Go source or to Go language
semantics:

* A Go `error` interface value is either the nil interface, a leaf error
  object allocated by `errors.New` (identified by an allocation reference
  `ref` together with the text its `Error()` method returns; Go compares
  interface values holding pointers by pointer identity, so two separate
  `errors.New` calls yield unequal values even for equal text), or an
  `Exception` value used through the `error` interface (a comparable Go
  struct, compared field by field).  This is the flat inductive `ErrVal`.
* `Exception` (src/ex.go lines 34-39) is a record of the four fields
  `code`, `id`, `message`, `innerError`.  Go `int` is modelled as `Int`.
* `New` (src/ex.go lines 72-74) stores `errors.New("")` in `innerError`;
  the allocation of a fresh error object is made explicit by a `ref`
  parameter, and two independent calls of `New` pass distinct refs.
* `Error` (src/ex.go lines 67-69) is `fmt.Sprintf("%s %+v", e.message,
  e.innerError)`.  For an `error` interface value, the `%+v` verb prints
  `<nil>` for the nil interface and otherwise the string returned by the
  `Error()` method of the dynamic value; this is `ErrVal.format`.
* Go value equality `==` on `error` interface values and on the comparable
  struct `Exception` is `ErrVal.geq` and `Exception.geq`.
-/

namespace Ex

/-- ExType is the Go integer type of exception categories (src/ex.go line 9). -/
abbrev ExType := Int

/-- First constant of the iota block, `iota + 1` (src/ex.go line 13). -/
def ExTypeIncorrectData : ExType := 1

/-- Second constant of the iota block (src/ex.go line 16). -/
def ExTypeLoginRequired : ExType := 2

/-- Third constant of the iota block (src/ex.go line 19). -/
def ExTypePermissionDenied : ExType := 3

/-- Fourth constant of the iota block (src/ex.go line 22). -/
def ExTypeApplicationFailure : ExType := 4

/-- A Go `error` interface value as it can occur in this package: the nil
interface, a leaf allocated by `errors.New` (pointer identity modelled by
`ref`, its `Error()` text by `text`), or an `Exception` struct value used as
an error (its four fields inlined, `inner` being its own `innerError`). -/
inductive ErrVal : Type where
  | nil : ErrVal
  | leaf (ref : Nat) (text : String) : ErrVal
  | exc (code : ExType) (id : Int) (message : String) (inner : ErrVal) : ErrVal
deriving DecidableEq

/-- Exception represents an error within the application
(src/ex.go lines 34-39). -/
structure Exception : Type where
  code : ExType
  id : Int
  message : String
  innerError : ErrVal
deriving DecidableEq

/-- Code is the read-only accessor for the category (src/ex.go lines 42-44). -/
def Exception.Code (e : Exception) : ExType := e.code

/-- ID is the read-only accessor for the exception id
(src/ex.go lines 47-49). -/
def Exception.ID (e : Exception) : Int := e.id

/-- Message is the read-only accessor for the message
(src/ex.go lines 52-54). -/
def Exception.Message (e : Exception) : String := e.message

/-- InnerError is the read-only accessor for the inner error
(src/ex.go lines 57-59). -/
def Exception.InnerError (e : Exception) : ErrVal := e.innerError

/-- WithInnerError sets the inner error on a copy of the value receiver and
returns the copy (src/ex.go lines 62-65). -/
def Exception.WithInnerError (e : Exception) (err : ErrVal) : Exception :=
  ⟨e.code, e.id, e.message, err⟩

/-- Rendering of an `error` interface value by the `%+v` verb of fmt:
`<nil>` for the nil interface, otherwise the text returned by the Error()
method of the dynamic value.  For an `Exception` the Error() method
(src/ex.go lines 67-69) concatenates the message, one space, and the
`%+v` rendering of its inner error. -/
def ErrVal.format : ErrVal → String
  | .nil => "<nil>"
  | .leaf _ t => t
  | .exc _ _ m inner => m ++ " " ++ inner.format

/-- Error renders the exception: `fmt.Sprintf("%s %+v", e.message,
e.innerError)` (src/ex.go lines 67-69). -/
def Exception.Error (e : Exception) : String :=
  e.message ++ " " ++ e.innerError.format

/-- New creates an exception with a message (src/ex.go lines 72-74):
`Exception{code: code, id: id, message: message, innerError: errors.New("")}`.
The call `errors.New("")` allocates a fresh error object; the allocation is
explicit here as the `ref` parameter, and independent calls of New pass
distinct refs. -/
def New (code : ExType) (id : Int) (message : String) (ref : Nat) : Exception :=
  ⟨code, id, message, ErrVal.leaf ref ""⟩

/-- Go value equality `==` on `error` interface values: nil equals nil, two
`errors.New` results are compared by pointer identity (the ref), two
`Exception` struct values field by field, and values of different dynamic
type are unequal. -/
def ErrVal.geq : ErrVal → ErrVal → Bool
  | .nil, .nil => true
  | .leaf r _, .leaf s _ => r == s
  | .exc c i m n, .exc d j p q => c == d && i == j && m == p && ErrVal.geq n q
  | _, _ => false

/-- Go value equality `==` on the comparable struct `Exception`: all four
fields are compared, the `innerError` interface field by interface
equality. -/
def Exception.geq (a b : Exception) : Bool :=
  a.code == b.code && a.id == b.id && a.message == b.message
    && a.innerError.geq b.innerError

/-- Modelled from the spec: the Unwrap method is absent from src/ex.go; only
its tests (ex_test.go) and benchmarks (bench_test.go) call it.  Spec section
4.1: Unwrap returns `cause` as-is (or the absent marker). -/
def Exception.Unwrap (e : Exception) : ErrVal := e.innerError

/-- Modelled from the spec: the String method on ExType is absent from
src/ex.go; only its tests (ex_test.go TestExType_String) call it.  Spec
section 4.1: maps the four named categories to their fixed names, and any
other integer value renders as `"Unknown(" + value + ")"`. -/
def ExTypeString (t : ExType) : String :=
  if t = ExTypeIncorrectData then "IncorrectData"
  else if t = ExTypeLoginRequired then "LoginRequired"
  else if t = ExTypePermissionDenied then "PermissionDenied"
  else if t = ExTypeApplicationFailure then "ApplicationFailure"
  else "Unknown(" ++ toString t ++ ")"

/-!
Claim theorems.
-/

/-- C1: the claim says Error returns the message, the separator ": " and the
cause text when a cause with non-empty text is present, and the message
exactly (no separator, no trailing artifact) when the cause is absent or has
empty text.  The code (src/ex.go lines 67-69) instead always appends a single
space and the `%+v` rendering of the inner error: with the cause cleared it
returns the message, a space and `<nil>`; on a fresh New it returns the
message and a trailing space; with a non-empty cause it separates by a space,
not by ": ".  This contradicts the tests of the repository (ex_test.go lines
40-49, 95, 245, 262) at each of these inputs. -/
theorem error_rendering_diverges :
    ((New ExTypeIncorrectData 400 "m" 0).WithInnerError ErrVal.nil).Error = "m <nil>"
    ∧ ((New ExTypeIncorrectData 400 "m" 0).WithInnerError ErrVal.nil).Error ≠ "m"
    ∧ (New ExTypeIncorrectData 400 "m" 0).Error = "m "
    ∧ (New ExTypeIncorrectData 400 "m" 0).Error ≠ "m"
    ∧ ((New ExTypeApplicationFailure 500 "Service unavailable" 0).WithInnerError
        (ErrVal.leaf 1 "database connection failed")).Error
        = "Service unavailable database connection failed"
    ∧ ((New ExTypeApplicationFailure 500 "Service unavailable" 0).WithInnerError
        (ErrVal.leaf 1 "database connection failed")).Error
        ≠ "Service unavailable: database connection failed" := by
  refine ⟨rfl, by decide, rfl, by decide, rfl, by decide⟩

/-- C2: the claim says two independently constructed Exceptions with the same
(category, id, message) and no cause attached are equal under plain value
equality.  Under the code (src/ex.go lines 72-74) each New call stores a
fresh `errors.New("")` object in `innerError`; Go interface equality compares
those by pointer identity, so the two values are unequal (first conjunct),
contradicting the test Test_ErrorsIsWithExceptionTypes (ex_test.go lines
169-173).  Values differing in id are unequal as the claim says (second
conjunct), and clearing both causes restores equality, showing the equality
model is not degenerate (third conjunct). -/
theorem value_equality_diverges :
    Exception.geq (New ExTypeIncorrectData 400 "x" 0) (New ExTypeIncorrectData 400 "x" 1)
      = false
    ∧ Exception.geq (New ExTypeIncorrectData 400 "x" 0) (New ExTypeIncorrectData 401 "x" 1)
      = false
    ∧ Exception.geq ((New ExTypeIncorrectData 400 "x" 0).WithInnerError ErrVal.nil)
        ((New ExTypeIncorrectData 400 "x" 1).WithInnerError ErrVal.nil) = true := by
  refine ⟨by decide, by decide, by decide⟩

/-- C3: the claim says the constructor hands back category, id and message
through the accessors (true, first three conjuncts), and that the fresh
Cause() is absent.  The code (src/ex.go line 73) stores `errors.New("")`, a
non-nil error object, so InnerError() on a fresh Exception is not the absent
marker (last conjunct), contradicting ex_test.go line 284
(`assert.Nil(t, original.InnerError())`) and line 196. -/
theorem fresh_cause_not_absent :
    (New ExTypeIncorrectData 400 "x" 0).Code = ExTypeIncorrectData
    ∧ (New ExTypeIncorrectData 400 "x" 0).ID = 400
    ∧ (New ExTypeIncorrectData 400 "x" 0).Message = "x"
    ∧ (New ExTypeIncorrectData 400 "x" 0).InnerError ≠ ErrVal.nil := by
  refine ⟨rfl, rfl, rfl, by decide⟩

/-- C4: Unwrap (modelled from the spec, the method being absent from
src/ex.go) returns the stored cause unchanged: the exact value attached by
WithInnerError comes back, the absent marker comes back when the absent
marker was attached, and on any Exception it is exactly the stored
innerError field. -/
theorem unwrap_returns_stored_cause :
    ∀ (e : Exception) (x : ErrVal),
      e.Unwrap = e.InnerError
      ∧ (e.WithInnerError x).Unwrap = x
      ∧ (e.WithInnerError ErrVal.nil).Unwrap = ErrVal.nil :=
  fun _ _ => ⟨rfl, rfl, rfl⟩

/-- C5: the category-to-text conversion (modelled from the spec, the String
method being absent from src/ex.go) maps the four named categories to their
fixed names and any other integer n to "Unknown(" ++ n ++ ")". -/
theorem extype_string_spec :
    ExTypeString ExTypeIncorrectData = "IncorrectData"
    ∧ ExTypeString ExTypeLoginRequired = "LoginRequired"
    ∧ ExTypeString ExTypePermissionDenied = "PermissionDenied"
    ∧ ExTypeString ExTypeApplicationFailure = "ApplicationFailure"
    ∧ ∀ n : ExType, n ≠ ExTypeIncorrectData → n ≠ ExTypeLoginRequired →
        n ≠ ExTypePermissionDenied → n ≠ ExTypeApplicationFailure →
        ExTypeString n = "Unknown(" ++ toString n ++ ")" := by
  refine ⟨rfl, rfl, rfl, rfl, fun n h1 h2 h3 h4 => ?_⟩
  simp [ExTypeString, h1, h2, h3, h4]

/-- C5 witness: the generic branch of extype_string_spec evaluated at the
concrete category 999 gives "Unknown(999)". -/
theorem extype_string_spec_witness : ExTypeString 999 = "Unknown(999)" :=
  (extype_string_spec.2.2.2.2 999 (by decide) (by decide) (by decide) (by decide)).trans
    (by decide)

/-- C6: WithInnerError changes only the cause field: the result carries the
receiver's category, id and message and exactly the new cause.  The receiver
itself is a Go value (value receiver, src/ex.go line 62), so the caller's
copy is untouched; in this pure embedding that is value semantics. -/
theorem withInnerError_frame :
    ∀ (a : Exception) (x : ErrVal),
      (a.WithInnerError x).Code = a.Code
      ∧ (a.WithInnerError x).ID = a.ID
      ∧ (a.WithInnerError x).Message = a.Message
      ∧ (a.WithInnerError x).InnerError = x :=
  fun _ _ => ⟨rfl, rfl, rfl, rfl⟩

/-- C7: chained WithInnerError calls are last-write-wins: the final value
carries cause y and the base category, id and message, while the
intermediate value carries cause x independently. -/
theorem withInnerError_last_wins :
    ∀ (a : Exception) (x y : ErrVal),
      ((a.WithInnerError x).WithInnerError y).InnerError = y
      ∧ ((a.WithInnerError x).WithInnerError y).Code = a.Code
      ∧ ((a.WithInnerError x).WithInnerError y).ID = a.ID
      ∧ ((a.WithInnerError x).WithInnerError y).Message = a.Message
      ∧ (a.WithInnerError x).InnerError = x :=
  fun _ _ _ => ⟨rfl, rfl, rfl, rfl, rfl⟩

/-- C8: every operation is total and failure-free: each equation below holds
for all inputs with no side condition, so negative ids, empty messages and
out-of-enum categories are accepted silently by New and every accessor,
WithInnerError, rendering and unwrap application yields a definite value
(none of the operations returns an error or is partial). -/
theorem operations_total :
    ∀ (code : ExType) (id : Int) (message : String) (ref : Nat) (e : Exception) (x : ErrVal),
      (New code id message ref).Code = code
      ∧ (New code id message ref).ID = id
      ∧ (New code id message ref).Message = message
      ∧ (e.WithInnerError x).InnerError = x
      ∧ e.Error = e.message ++ " " ++ e.innerError.format
      ∧ e.Unwrap = e.innerError :=
  fun _ _ _ _ _ _ => ⟨rfl, rfl, rfl, rfl, rfl, rfl⟩

/-- C9: New initializes the inner error to the `errors.New("")` object: a
non-nil error value whose own error text is the empty string, so InnerError
on a fresh Exception is present, not the absent marker
(src/ex.go lines 72-74, 57-59). -/
theorem new_inner_error_nonnil_empty :
    ∀ (code : ExType) (id : Int) (message : String) (ref : Nat),
      (New code id message ref).InnerError = ErrVal.leaf ref ""
      ∧ (New code id message ref).InnerError ≠ ErrVal.nil
      ∧ ErrVal.format ((New code id message ref).InnerError) = "" :=
  fun _ _ _ _ => ⟨rfl, by simp [New, Exception.InnerError], rfl⟩

/-- C10: the iota block (src/ex.go lines 11-23) starts at iota + 1, so the
four named constants are 1, 2, 3, 4 and none of them is the zero value of
the category type. -/
theorem extype_constant_values :
    ExTypeIncorrectData = 1 ∧ ExTypeLoginRequired = 2
    ∧ ExTypePermissionDenied = 3 ∧ ExTypeApplicationFailure = 4
    ∧ ExTypeIncorrectData ≠ 0 ∧ ExTypeLoginRequired ≠ 0
    ∧ ExTypePermissionDenied ≠ 0 ∧ ExTypeApplicationFailure ≠ 0 := by
  refine ⟨rfl, rfl, rfl, rfl, by decide, by decide, by decide, by decide⟩

end Ex
